import Mathlib

/-!
Shallow embedding of the PAC-MAN repository's simulation core
(`src/world/board.py`, `src/entities/player.py`, `src/entities/ghosts.py`,
`src/core/game.py`) in Lean 4, together with theorems settling the frozen
claims about its specification.

Modelling conventions:
* Python ints are `Int`; grid coordinates are `Int × Int` (row, column).
* Python sets of coordinates are duplicate-free `List (Int × Int)`; `remove` /
  `discard` become `List.erase` (the lists the program builds have no
  duplicates, so erasing the first occurrence is exact).
* Attributes that some code paths create dynamically (and that `__init__` does
  not define) are `Option` fields starting at `none`; reading such an
  attribute goes through `readAttr`, which raises `PyErr.attrError` exactly
  where Python would raise `AttributeError`.  Fallible code therefore lives in
  `Except PyErr`.
* `random.choice` is modelled by an explicit chooser parameter
  `ch : List (Int × Int) → Option (Int × Int)`; theorems that need the
  `random.choice` contract (a uniformly drawn *element* of a non-empty list)
  assume it as a hypothesis, and refutations instantiate a concrete chooser
  (any element has positive probability, so any chooser describes a possible
  run).
* Floating-point presentation state (`float_pos`, `speed`, the animation
  counters) is pure render-side smoothing never read by the simulation logic;
  it is omitted from the embedded state.  `interpolate_position` therefore
  embeds as the identity on the embedded fields.
-/

namespace Pacman

/-- Position on the grid: (row, column), as Python integers. -/
abbrev Pos := Int × Int

/-- Errors the Python code can raise while the simulation runs. -/
inductive PyErr where
  | attrError (name : String)
  | indexError
  | notImplementedError
  deriving Repr, DecidableEq

/-- Reading a possibly-undefined attribute: `AttributeError` when absent. -/
def readAttr (o : Option α) (name : String) : Except PyErr α :=
  match o with
  | some v => .ok v
  | none => .error (.attrError name)

/-- Python `list[i]`: `IndexError` when out of range. -/
def listIndexE (l : List α) (i : Nat) : Except PyErr α :=
  match l.get? i with
  | some v => .ok v
  | none => .error .indexError

/-- In-place update of the i-th element of a Python list of objects. -/
def listModify (f : α → α) : List α → Nat → List α
  | [], _ => []
  | a :: rest, 0 => f a :: rest
  | a :: rest, n + 1 => a :: listModify f rest n

/-! ## `src/world/board.py` -/

def DEFAULT_ROWS : Int := 21
def DEFAULT_COLS : Int := 19

def WALL : Int := 1
def PATH : Int := 0
def GHOST_HOUSE : Int := 2
def GHOST_DOOR : Int := 3

/-- `ORIGINAL_PACMAN_MAZE`: the fixed 21×19 template, row by row. -/
def mazeTemplate : List (List Int) :=
  [[1, 1, 1, 1, 1, 1, 1, 1, 1, 1, 1, 1, 1, 1, 1, 1, 1, 1, 1],
   [1, 0, 0, 0, 0, 0, 0, 0, 0, 1, 0, 0, 0, 0, 0, 0, 0, 0, 1],
   [1, 0, 1, 1, 0, 1, 1, 1, 0, 1, 0, 1, 1, 1, 0, 1, 1, 0, 1],
   [1, 0, 1, 1, 0, 1, 1, 1, 0, 1, 0, 1, 1, 1, 0, 1, 1, 0, 1],
   [1, 0, 0, 0, 0, 0, 0, 0, 0, 0, 0, 0, 0, 0, 0, 0, 0, 0, 1],
   [1, 0, 1, 1, 0, 1, 0, 1, 1, 1, 1, 1, 0, 1, 0, 1, 1, 0, 1],
   [1, 0, 0, 0, 0, 1, 0, 0, 0, 1, 0, 0, 0, 1, 0, 0, 0, 0, 1],
   [1, 1, 1, 1, 0, 1, 1, 1, 0, 1, 0, 1, 1, 1, 0, 1, 1, 1, 1],
   [1, 1, 1, 1, 0, 1, 0, 0, 0, 0, 0, 0, 0, 1, 0, 1, 1, 1, 1],
   [1, 1, 1, 1, 0, 1, 0, 1, 3, 3, 3, 1, 0, 1, 0, 1, 1, 1, 1],
   [0, 0, 0, 0, 0, 0, 0, 1, 2, 2, 2, 1, 0, 0, 0, 0, 0, 0, 0],
   [1, 1, 1, 1, 0, 1, 0, 1, 1, 1, 1, 1, 0, 1, 0, 1, 1, 1, 1],
   [1, 1, 1, 1, 0, 1, 0, 0, 0, 0, 0, 0, 0, 1, 0, 1, 1, 1, 1],
   [1, 1, 1, 1, 0, 1, 0, 1, 1, 1, 1, 1, 0, 1, 0, 1, 1, 1, 1],
   [1, 0, 0, 0, 0, 0, 0, 0, 0, 1, 0, 0, 0, 0, 0, 0, 0, 0, 1],
   [1, 0, 1, 1, 0, 1, 1, 1, 0, 1, 0, 1, 1, 1, 0, 1, 1, 0, 1],
   [1, 0, 0, 1, 0, 0, 0, 0, 0, 0, 0, 0, 0, 0, 0, 1, 0, 0, 1],
   [1, 1, 0, 1, 0, 1, 0, 1, 1, 1, 1, 1, 0, 1, 0, 1, 0, 1, 1],
   [1, 0, 0, 0, 0, 1, 0, 0, 0, 1, 0, 0, 0, 1, 0, 0, 0, 0, 1],
   [1, 0, 1, 1, 1, 1, 1, 1, 0, 1, 0, 1, 1, 1, 1, 1, 1, 0, 1],
   [1, 0, 0, 0, 0, 0, 0, 0, 0, 0, 0, 0, 0, 0, 0, 0, 0, 0, 1]]

def pacmanSpawn : Pos := (16, 9)

def ghostSpawn : List Pos := [(10, 8), (10, 9), (10, 10), (10, 11)]

def ghostHouseExit : Pos := (9, 9)

def powerPelletPositions : List Pos := [(1, 1), (1, 17), (16, 1), (16, 17)]

def TUNNEL_LEFT : Pos := (10, 0)
def TUNNEL_RIGHT : Pos := (10, 18)

/-- `maze[r][c]` for an in-bounds access (all call sites bounds-check first). -/
def cellAt (m : List (List Int)) (r c : Int) : Int :=
  (((m.get? r.toNat).getD []).get? c.toNat).getD (-1)

/-- `BoardGenerator.generate_maze`: a fresh copy of the fixed template. -/
def generateMaze : List (List Int) := mazeTemplate

/-- `BoardGenerator.is_valid_position` (the board's dimensions are fixed). -/
def isValidPosition (r c : Int) : Bool :=
  decide (0 ≤ r ∧ r < DEFAULT_ROWS ∧ 0 ≤ c ∧ c < DEFAULT_COLS)

/-- `BoardGenerator.can_pacman_move_to`: in bounds and cell type `PATH`.
The board consults its own fixed copy of the template. -/
def canPacmanMoveTo (r c : Int) : Bool :=
  isValidPosition r c && decide (cellAt mazeTemplate r c = PATH)

/-- `BoardGenerator.can_ghost_move_to`: in bounds and `PATH`, `GHOST_HOUSE`
or `GHOST_DOOR`. -/
def canGhostMoveTo (r c : Int) : Bool :=
  isValidPosition r c &&
    decide (cellAt mazeTemplate r c = PATH ∨ cellAt mazeTemplate r c = GHOST_HOUSE ∨
            cellAt mazeTemplate r c = GHOST_DOOR)

/-- `BoardGenerator.handle_tunnel_teleport`. -/
def handleTunnelTeleport (r c : Int) : Pos :=
  if r = TUNNEL_LEFT.1 ∧ c < 0 then (r, DEFAULT_COLS - 1)
  else if r = TUNNEL_RIGHT.1 ∧ c ≥ DEFAULT_COLS then (r, 0)
  else (r, c)

/-- `BoardGenerator.get_walkable_positions`: every `PATH` cell of the board's
fixed maze, scanned row-major. -/
def getWalkablePositions : List Pos :=
  (List.range 21).foldr
    (fun i acc =>
      (List.range 19).foldr
        (fun j a =>
          if cellAt mazeTemplate (Int.ofNat i) (Int.ofNat j) = PATH then
            ((Int.ofNat i, Int.ofNat j) : Pos) :: a
          else a)
        acc)
    []

/-- `BoardGenerator.place_all_food`: all walkable cells except the excluded
positions. -/
def placeAllFood (excludePositions : List Pos) : List Pos :=
  getWalkablePositions.filter (fun p => !decide (p ∈ excludePositions))

/-- `BoardGenerator.get_power_pellets`. -/
def getPowerPellets : List Pos := powerPelletPositions

/-! ## Entity state (`src/entities/player.py`, `src/entities/ghosts.py`) -/

/-- `PacMan` instance state.  `move_delay` / `move_frequency` are *not*
assigned by `PacMan.__init__` (they are read, and `move_delay` also written,
only by `GameCore._update_pacman_movement`), hence `Option` starting `none`. -/
structure PacManE where
  position : Pos
  lives : Int
  score : Int
  direction : String
  next_direction : Option String
  move_delay : Option Int
  move_frequency : Option Int
  deriving Repr, DecidableEq

/-- `PacMan.__init__(initial_position, lives=3)`. -/
def mkPacMan (initialPosition : Pos) (lives : Int) : PacManE :=
  { position := initialPosition
    lives := lives
    score := 0
    direction := "RIGHT"
    next_direction := none
    move_delay := none
    move_frequency := none }

/-- `PacMan.lose_life`: decrement lives, report whether any remain.
Returned as (updated state, bool). -/
def loseLife (p : PacManE) : PacManE × Bool :=
  let p := { p with lives := p.lives - 1 }
  (p, decide (p.lives > 0))

/-- `PacMan.reset_position`. -/
def resetPosition (p : PacManE) (newPosition : Pos) : PacManE :=
  { p with position := newPosition, direction := "RIGHT", next_direction := none }

/-- `Ghost` instance state.  `in_house` is *not* assigned by
`Ghost.__init__`; `GameCore._setup_level` sets it only on ghost 0, the
release / eat / death code sets it on others.  `house_direction` /
`house_delay` are created lazily by `GameCore._ghost_house_behavior`. -/
structure GhostE where
  position : Pos
  move_counter : Int
  last_direction : Pos
  is_vulnerable : Bool
  vulnerable_timer : Int
  frightened_timer : Int
  ghost_type : String
  in_house : Option Bool
  house_direction : Option Int
  house_delay : Option Int
  deriving Repr, DecidableEq

/-- `Ghost.__init__` (as specialised by the `Blinky`/`Pinky`/`Inky`/`Clyde`
constructors, which pass their type tag). -/
def mkGhost (initialPosition : Pos) (ghostType : String) : GhostE :=
  { position := initialPosition
    move_counter := 0
    last_direction := (0, 0)
    is_vulnerable := false
    vulnerable_timer := 0
    frightened_timer := 0
    ghost_type := ghostType
    in_house := none
    house_direction := none
    house_delay := none }

/-- `self.directions = [(-1,0),(1,0),(0,-1),(0,1)]` — UP, DOWN, LEFT, RIGHT. -/
def directionsList : List Pos := [(-1, 0), (1, 0), (0, -1), (0, 1)]

/-- `Ghost.update_vulnerability`. -/
def updateVulnerability (g : GhostE) : GhostE :=
  if g.is_vulnerable then
    let vt := g.vulnerable_timer - 1
    let ft := g.frightened_timer - 1
    if vt ≤ 0 then
      { g with is_vulnerable := false, vulnerable_timer := 0, frightened_timer := 0 }
    else
      { g with vulnerable_timer := vt, frightened_timer := ft }
  else g

/-- Bounds check against the maze argument, as in
`0 <= new_row < len(maze) and 0 <= new_col < len(maze[0])`. -/
def inBoundsOf (m : List (List Int)) (r c : Int) : Bool :=
  decide (0 ≤ r ∧ r < (m.length : Int) ∧ 0 ≤ c ∧ c < ((m.headD []).length : Int))

/-- `Ghost._get_valid_moves`: legal (`maze == 0`) orthogonal neighbours,
skipping the direct reversal of `last_direction`, in scan order. -/
def getValidMoves (m : List (List Int)) (pos last : Pos) : List Pos :=
  directionsList.foldl
    (fun acc d =>
      let nr := pos.1 + d.1
      let nc := pos.2 + d.2
      if inBoundsOf m nr nc = true ∧ cellAt m nr nc = 0 ∧ d ≠ (-last.1, -last.2) then
        acc ++ [(nr, nc)]
      else acc)
    []

/-- A model of `random.choice`: some way of picking from a list. -/
abbrev Chooser := List Pos → Option Pos

/-- The `random.choice` contract: on a non-empty list it returns an element
of the list.  Any such chooser describes a possible run of the program. -/
def ChooserOk (ch : Chooser) : Prop :=
  ∀ l : List Pos, l ≠ [] → ∃ x ∈ l, ch l = some x

/-- `Ghost._choose_random_move`: `None` on an empty list, otherwise a
`random.choice` from it. -/
def chooseRandomMove (ch : Chooser) (validMoves : List Pos) : Option Pos :=
  if validMoves = [] then none else ch validMoves

/-- Manhattan distance `abs(r1-r2) + abs(c1-c2)`. -/
def manhattan (a b : Pos) : Nat :=
  (a.1 - b.1).natAbs + (a.2 - b.2).natAbs

/-- `Ghost._move_towards_target`: scan the four directions, keep in-bounds
`maze == 0` cells that are not the reversal of `last_direction`, and track
the first neighbour (in scan order) strictly minimising Manhattan distance
to the target (`best_distance` starts at `float('inf')`, modelled by the
`none` accumulator). -/
def moveTowardsTarget (m : List (List Int)) (pos last target : Pos) : Option Pos :=
  (directionsList.foldl
    (fun (best : Option (Pos × Nat)) d =>
      let nr := pos.1 + d.1
      let nc := pos.2 + d.2
      if inBoundsOf m nr nc = true ∧ cellAt m nr nc = 0 ∧ d ≠ (-last.1, -last.2) then
        let dist := manhattan (nr, nc) target
        match best with
        | none => some ((nr, nc), dist)
        | some pr => if dist < pr.2 then some ((nr, nc), dist) else best
      else best)
    none).map Prod.fst

/-- The commit step shared verbatim by every ghost's `move`:
`self.position = list(next_pos)` and *then*
`self.last_direction = (next_pos[0] - self.position[0], next_pos[1] - self.position[1])`,
i.e. the difference is taken against the already-updated position. -/
def commitMove (g : GhostE) (nextPos : Option Pos) : GhostE :=
  match nextPos with
  | some p =>
      let position' := p
      { g with position := position',
               last_direction := (p.1 - position'.1, p.2 - position'.2) }
  | none => g

/-- The third argument of `Ghost.move` as a Python value: `None`, a string,
or some other object (`GameCore.update` passes its `BoardGenerator` there). -/
inductive PyObjArg where
  | noneA
  | strA (s : String)
  | otherA
  deriving Repr, DecidableEq

/-- Python truthiness of that argument. -/
def truthyArg : PyObjArg → Bool
  | .noneA => false
  | .strA s => !(s = "")
  | .otherA => true

/-- `{"UP": (-2,0), "DOWN": (2,0), "LEFT": (0,-2), "RIGHT": (0,2)}.get(arg, (0,0))`
(a non-string key simply misses every entry). -/
def pinkyOffset : PyObjArg → Pos
  | .strA "UP" => (-2, 0)
  | .strA "DOWN" => (2, 0)
  | .strA "LEFT" => (0, -2)
  | .strA "RIGHT" => (0, 2)
  | _ => (0, 0)

/-- The flight scan shared by `Inky.move` and `Clyde.move` when close to the
chased position: pick the in-bounds `maze == 0` non-reversal neighbour
maximising `dr*dx + dc*dy` (first wins ties, via strict `>`).  The Python
code divides `dx`, `dy` by the positive normalisation constant
`length = max(1, sqrt(dx²+dy²))` before the dot product; dividing both
operands by the same positive constant preserves the ordering (and the
float roundings cannot reorder these small integer ratios), so the
comparison is embedded over the integer numerators. -/
def fleeScan (m : List (List Int)) (pos last : Pos) (dx dy : Int) : Option Pos :=
  (directionsList.foldl
    (fun (best : Option (Pos × Int)) d =>
      let nr := pos.1 + d.1
      let nc := pos.2 + d.2
      if inBoundsOf m nr nc = true ∧ cellAt m nr nc = 0 ∧ d ≠ (-last.1, -last.2) then
        let dotProduct := d.1 * dx + d.2 * dy
        match best with
        | none => some ((nr, nc), dotProduct)
        | some (_, bd) => if dotProduct > bd then some ((nr, nc), dotProduct) else best
      else best)
    none).map Prod.fst

/-- `Blinky.move`. -/
def blinkyMove (ch : Chooser) (m : List (List Int)) (pacmanPosition : Option Pos)
    (g : GhostE) : GhostE :=
  let g1 := { g with move_counter := g.move_counter + 1 }
  if g1.move_counter < 20 then updateVulnerability g1
  else
    let g2 := { g1 with move_counter := 0 }
    let nextPos : Option Pos :=
      match pacmanPosition with
      | none => chooseRandomMove ch (getValidMoves m g2.position g2.last_direction)
      | some pp =>
          if g2.is_vulnerable then
            chooseRandomMove ch (getValidMoves m g2.position g2.last_direction)
          else
            moveTowardsTarget m g2.position g2.last_direction pp
    updateVulnerability (commitMove g2 nextPos)

/-- `Pinky.move`. -/
def pinkyMove (ch : Chooser) (m : List (List Int)) (pacmanPosition : Option Pos)
    (pacmanDirection : PyObjArg) (g : GhostE) : GhostE :=
  let g1 := { g with move_counter := g.move_counter + 1 }
  if g1.move_counter < 20 then updateVulnerability g1
  else
    let g2 := { g1 with move_counter := 0 }
    let nextPos : Option Pos :=
      match pacmanPosition with
      | none => chooseRandomMove ch (getValidMoves m g2.position g2.last_direction)
      | some pp =>
          if truthyArg pacmanDirection = false then
            chooseRandomMove ch (getValidMoves m g2.position g2.last_direction)
          else if g2.is_vulnerable then
            chooseRandomMove ch (getValidMoves m g2.position g2.last_direction)
          else
            let offset := pinkyOffset pacmanDirection
            let rows : Int := m.length
            let cols : Int := (m.headD []).length
            let target : Pos :=
              (max 0 (min (rows - 1) (pp.1 + offset.1)),
               max 0 (min (cols - 1) (pp.2 + offset.2)))
            moveTowardsTarget m g2.position g2.last_direction target
    updateVulnerability (commitMove g2 nextPos)

/-- `Inky.move`.  `math.sqrt(dx²+dy²) < 5` on integer `dx`, `dy` is exactly
`dx²+dy² < 25` (both sides of the float comparison are exact here). -/
def inkyMove (ch : Chooser) (m : List (List Int)) (pacmanPosition : Option Pos)
    (g : GhostE) : GhostE :=
  let g1 := { g with move_counter := g.move_counter + 1 }
  if g1.move_counter < 20 then updateVulnerability g1
  else
    let g2 := { g1 with move_counter := 0 }
    let nextPos : Option Pos :=
      match pacmanPosition with
      | none => chooseRandomMove ch (getValidMoves m g2.position g2.last_direction)
      | some pp =>
          if g2.is_vulnerable then
            chooseRandomMove ch (getValidMoves m g2.position g2.last_direction)
          else
            let dx := g2.position.1 - pp.1
            let dy := g2.position.2 - pp.2
            if dx * dx + dy * dy < 25 then
              fleeScan m g2.position g2.last_direction dx dy
            else
              chooseRandomMove ch (getValidMoves m g2.position g2.last_direction)
    updateVulnerability (commitMove g2 nextPos)

/-- `Clyde.move`.  `math.sqrt(dx²+dy²) < 8` is exactly `dx²+dy² < 64`. -/
def clydeMove (ch : Chooser) (m : List (List Int)) (pacmanPosition : Option Pos)
    (g : GhostE) : GhostE :=
  let g1 := { g with move_counter := g.move_counter + 1 }
  if g1.move_counter < 20 then updateVulnerability g1
  else
    let g2 := { g1 with move_counter := 0 }
    let nextPos : Option Pos :=
      match pacmanPosition with
      | none => chooseRandomMove ch (getValidMoves m g2.position g2.last_direction)
      | some pp =>
          if g2.is_vulnerable then
            chooseRandomMove ch (getValidMoves m g2.position g2.last_direction)
          else
            let dx := g2.position.1 - pp.1
            let dy := g2.position.2 - pp.2
            if dx * dx + dy * dy < 64 then
              fleeScan m g2.position g2.last_direction dx dy
            else
              moveTowardsTarget m g2.position g2.last_direction pp
    updateVulnerability (commitMove g2 nextPos)

/-- Dynamic dispatch of `ghost.move(...)`.  The four constructed subclasses
carry distinct `ghost_type` tags; a bare `Ghost` would raise
`NotImplementedError`. -/
def ghostMoveDispatch (ch : Chooser) (m : List (List Int)) (pacmanPosition : Option Pos)
    (pacmanDirection : PyObjArg) (g : GhostE) : Except PyErr GhostE :=
  if g.ghost_type = "blinky" then .ok (blinkyMove ch m pacmanPosition g)
  else if g.ghost_type = "pinky" then .ok (pinkyMove ch m pacmanPosition pacmanDirection g)
  else if g.ghost_type = "inky" then .ok (inkyMove ch m pacmanPosition g)
  else if g.ghost_type = "clyde" then .ok (clydeMove ch m pacmanPosition g)
  else .error .notImplementedError

/-! ## `src/core/game.py` -/

/-- `GameCore` session state (sound manager omitted: audio is a pure side
effect; the board generator's fixed maze is the constant `mazeTemplate`). -/
structure GState where
  game_state : String
  level : Int
  maze : List (List Int)
  food_positions : List Pos
  power_pellet_positions : List Pos
  initial_food_count : Int
  pacman : Option PacManE
  ghosts : List GhostE
  power_pellet_active : Bool
  power_pellet_timer : Int
  power_pellet_duration : Int
  ghost_release_timer : Int
  ghosts_released : Int
  deriving Repr, DecidableEq

/-- `GameCore.__init__`. -/
def initCore : GState :=
  { game_state := "MENU"
    level := 1
    maze := []
    food_positions := []
    power_pellet_positions := []
    initial_food_count := 0
    pacman := none
    ghosts := []
    power_pellet_active := false
    power_pellet_timer := 0
    power_pellet_duration := 540
    ghost_release_timer := 0
    ghosts_released := 0 }

/-- `GameCore._setup_level`. -/
def setupLevel (s : GState) : GState :=
  let maze := generateMaze
  let excludePositions := pacmanSpawn :: ghostSpawn
  let food0 := placeAllFood excludePositions
  let food := powerPelletPositions.foldl (fun f p => f.erase p) food0
  let pellets := getPowerPellets
  let ghosts :=
    if ghostSpawn.length ≥ 4 then
      [mkGhost (ghostSpawn.getD 0 (0, 0)) "blinky",
       mkGhost (ghostSpawn.getD 1 (0, 0)) "pinky",
       mkGhost (ghostSpawn.getD 2 (0, 0)) "inky",
       mkGhost (ghostSpawn.getD 3 (0, 0)) "clyde"]
    else []
  let ghosts := listModify (fun g => { g with in_house := some false }) ghosts 0
  { s with
      maze := maze
      food_positions := food
      power_pellet_positions := pellets
      initial_food_count := (food.length : Int) + (pellets.length : Int)
      pacman := some (mkPacMan pacmanSpawn 3)
      ghosts := ghosts
      ghost_release_timer := 0
      ghosts_released := 1 }

/-- `GameCore.start_new_game`. -/
def startNewGame (s : GState) : GState :=
  setupLevel
    { s with
        level := 1
        game_state := "PLAYING"
        power_pellet_active := false
        power_pellet_timer := 0
        ghosts_released := 0 }

/-- `GameCore.handle_input`.  Reading `self.pacman.next_direction` on a
`None` player would raise, hence `Except`. -/
def handleInput (direction : String) (s : GState) : Except PyErr GState :=
  if s.game_state = "PLAYING" then
    if direction = "PAUSE" then .ok { s with game_state := "PAUSED" }
    else do
      let pac ← readAttr s.pacman "next_direction"
      .ok { s with pacman := some { pac with next_direction := some direction } }
  else if s.game_state = "PAUSED" then
    if direction = "PAUSE" then .ok { s with game_state := "PLAYING" }
    else .ok s
  else .ok s

/-- Sequentially transform a Python list, propagating the first raised
error (the effect of a `for` loop mutating each element in turn). -/
def mapME (f : α → Except PyErr β) : List α → Except PyErr (List β)
  | [] => .ok []
  | a :: rest => do
      let b ← f a
      let rest' ← mapME f rest
      .ok (b :: rest')

/-- `GameCore._activate_power_pellet` (reads every ghost's `in_house`).
The source sets `power_pellet_active` / `power_pellet_timer` before looping
over the ghosts; the loop reads only `ghosts` and `power_pellet_duration`,
which those assignments do not touch, so the final state is assembled in
one step here. -/
def activatePowerPellet (s : GState) : Except PyErr GState := do
  let ghosts ← mapME (fun g => do
    let ih ← readAttr g.in_house "in_house"
    if ih = false then
      pure { g with is_vulnerable := true, vulnerable_timer := s.power_pellet_duration }
    else pure g) s.ghosts
  .ok { s with power_pellet_active := true, power_pellet_timer := s.power_pellet_duration,
               ghosts := ghosts }

/-- `GameCore._deactivate_power_pellet`. -/
def deactivatePowerPellet (s : GState) : GState :=
  { s with
      power_pellet_active := false
      ghosts := s.ghosts.map (fun g => { g with is_vulnerable := false, vulnerable_timer := 0 }) }

/-- `GameCore._check_food_collision`. -/
def checkFoodCollision (s : GState) : Except PyErr GState := do
  let pac ← readAttr s.pacman "position"
  let posTuple := pac.position
  if posTuple ∈ s.food_positions then
    .ok { s with
            food_positions := s.food_positions.erase posTuple
            pacman := some { pac with score := pac.score + 10 } }
  else if posTuple ∈ s.power_pellet_positions then
    activatePowerPellet
      { s with
          power_pellet_positions := s.power_pellet_positions.erase posTuple
          pacman := some { pac with score := pac.score + 50 } }
  else .ok s

/-- `{"UP": (-1,0), "DOWN": (1,0), "LEFT": (0,-1), "RIGHT": (0,1)}.get(d, (0,0))`. -/
def dirOffset (d : String) : Pos :=
  if d = "UP" then (-1, 0)
  else if d = "DOWN" then (1, 0)
  else if d = "LEFT" then (0, -1)
  else if d = "RIGHT" then (0, 1)
  else (0, 0)

/-- Python truthiness of `self.pacman.next_direction` (`None` or a string). -/
def truthyOptStr : Option String → Bool
  | none => false
  | some s => !(s = "")

/-- The second half of `GameCore._update_pacman_movement`: "Si no pudo
cambiar dirección, continuar en la dirección actual" — step in the current
facing direction through the tunnel wrap, commit if legal, else stay. -/
def tryCurrentDirection (s : GState) (pac : PacManE) : Except PyErr GState :=
  let off := dirOffset pac.direction
  let p := handleTunnelTeleport (pac.position.1 + off.1) (pac.position.2 + off.2)
  if canPacmanMoveTo p.1 p.2 = true then
    checkFoodCollision { s with pacman := some { pac with position := p } }
  else
    .ok s

/-- `GameCore._update_pacman_movement`.  The very first statement reads (and
increments) `self.pacman.move_delay`, then reads `move_frequency` — neither
is ever defined by `PacMan.__init__`.  After the cadence gate, the requested
`next_direction` is tried first (its early `return` on success is embedded
as the first branch of the conditional; on failure control falls through to
`tryCurrentDirection`). -/
def updatePacmanMovement (s : GState) : Except PyErr GState := do
  let pac ← readAttr s.pacman "move_delay"
  let md ← readAttr pac.move_delay "move_delay"
  let mf ← readAttr pac.move_frequency "move_frequency"
  if md + 1 < mf then
    .ok { s with pacman := some { pac with move_delay := some (md + 1) } }
  else
    let pac := { pac with move_delay := some 0 }
    let s := { s with pacman := some pac }
    let nd := pac.next_direction.getD ""
    let off := dirOffset nd
    let newRow := pac.position.1 + off.1
    let newCol := pac.position.2 + off.2
    if truthyOptStr pac.next_direction = true ∧ canPacmanMoveTo newRow newCol = true then
      checkFoodCollision
        { s with pacman := some { pac with direction := nd, position := (newRow, newCol) } }
    else
      tryCurrentDirection s pac

/-- `GameCore._update_ghost_release`: the sequential release loop over the
fixed thresholds `[0, 120, 240, 360]`. -/
def updateGhostRelease (s : GState) : GState :=
  if s.ghosts_released ≥ (s.ghosts.length : Int) then s
  else
    let s := { s with ghost_release_timer := s.ghost_release_timer + 1 }
    ([(0, (0 : Int)), (1, 120), (2, 240), (3, 360)] : List (Nat × Int)).foldl
      (fun s ir =>
        if (ir.1 : Int) < s.ghosts_released then s
        else if s.ghost_release_timer ≥ ir.2 then
          if ir.1 < s.ghosts.length then
            { s with
                ghosts := listModify
                  (fun g => { g with in_house := some false, position := ghostHouseExit })
                  s.ghosts ir.1
                ghosts_released := s.ghosts_released + 1 }
          else s
        else s)
      s

/-- `GameCore._ghost_house_behavior`: lazily creates `house_direction` /
`house_delay`, then oscillates vertically between rows 9 and 11 every 15
frames.  (`GHOST_SPAWN[0][0] = 10`.) -/
def ghostHouseBehavior (g : GhostE) : Except PyErr GhostE := do
  let g := if g.house_direction = none then
      { g with house_direction := some 1, house_delay := some 0 }
    else g
  let hd ← readAttr g.house_direction "house_direction"
  let hdel ← readAttr g.house_delay "house_delay"
  let g := { g with house_delay := some (hdel + 1) }
  if hdel + 1 < 15 then .ok g
  else
    let g := { g with house_delay := some 0 }
    let newRow := g.position.1 + hd
    if newRow < 10 - 1 ∨ newRow > 10 + 1 then
      .ok { g with house_direction := some (-hd) }
    else
      .ok { g with position := (newRow, g.position.2) }

/-- `GameCore._get_scatter_target`: the four corner cells; with `flee=True`,
the corner at maximal Manhattan distance from Pac-Man
(`distances.index(max(distances))`: first maximal index wins). -/
def getScatterTarget (g : GhostE) (flee : Bool) (pacmanPosition : Pos) : Pos :=
  let corners : List Pos :=
    [(1, 1), (1, DEFAULT_COLS - 2), (DEFAULT_ROWS - 2, 1), (DEFAULT_ROWS - 2, DEFAULT_COLS - 2)]
  if flee then
    let distances := corners.map (fun c => manhattan c pacmanPosition)
    let maxDist := distances.foldl max 0
    let rec firstIdx : List Nat → Nat
      | [] => 0
      | a :: rest => if a = maxDist then 0 else firstIdx rest + 1
    corners.getD (firstIdx distances) (0, 0)
  else
    if g.ghost_type = "blinky" then corners.getD 1 (0, 0)
    else if g.ghost_type = "pinky" then corners.getD 0 (0, 0)
    else if g.ghost_type = "inky" then corners.getD 3 (0, 0)
    else if g.ghost_type = "clyde" then corners.getD 2 (0, 0)
    else corners.getD 0 (0, 0)

/-- `{"UP": (-4,0), ...}.get(direction, (0,0))` used for Pinky's ambush
target inside `GameCore._get_ghost_target`. -/
def dirOffset4 (d : String) : Pos :=
  if d = "UP" then (-4, 0)
  else if d = "DOWN" then (4, 0)
  else if d = "LEFT" then (0, -4)
  else if d = "RIGHT" then (0, 4)
  else (0, 0)

/-- `GameCore._get_ghost_target` (the `isinstance` dispatch corresponds to
the type tags the four constructors install). -/
def getGhostTarget (pac : PacManE) (g : GhostE) : Pos :=
  if g.is_vulnerable then getScatterTarget g true pac.position
  else if g.ghost_type = "blinky" then pac.position
  else if g.ghost_type = "pinky" then
    let off := dirOffset4 pac.direction
    (pac.position.1 + off.1, pac.position.2 + off.2)
  else if g.ghost_type = "inky" then
    if manhattan g.position pac.position < 8 then pac.position
    else getScatterTarget g false pac.position
  else if g.ghost_type = "clyde" then
    if manhattan g.position pac.position > 8 then pac.position
    else getScatterTarget g false pac.position
  else pac.position

/-- The ghost-movement stage of `GameCore.update`: each ghost not in the
house moves by its AI toward `self._get_ghost_target(ghost)` (the
`BoardGenerator` object is passed in the `pacman_direction` slot), the rest
oscillate in the house. -/
def moveGhostsLoop (ch : Chooser) (s : GState) : Except PyErr GState := do
  let ghosts ← mapME (fun g => do
    let ih ← readAttr g.in_house "in_house"
    if ih = false then do
      let pac ← readAttr s.pacman "position"
      let targetPos := getGhostTarget pac g
      ghostMoveDispatch ch s.maze (some targetPos) .otherA g
    else
      ghostHouseBehavior g) s.ghosts
  .ok { s with ghosts := ghosts }

/-- `GameCore._eat_ghost` for the ghost at (identity-based) index `i`:
clear vulnerability, send home (`GHOST_SPAWN[i]` — `IndexError` past the
four spawn slots), award 200 points. -/
def eatGhost (s : GState) (i : Nat) : Except PyErr GState := do
  let home ← listIndexE ghostSpawn i
  let ghosts := listModify
    (fun g => { g with is_vulnerable := false, vulnerable_timer := 0,
                       in_house := some true, position := home })
    s.ghosts i
  let pac ← readAttr s.pacman "score"
  .ok { s with ghosts := ghosts, pacman := some { pac with score := pac.score + 200 } }

/-- The per-ghost reset loop inside `GameCore._pacman_dies`
(`ghost.position = list(GHOST_SPAWN[i])`, back in house, not vulnerable). -/
def resetGhostsLoop : List GhostE → Nat → Except PyErr (List GhostE)
  | [], _ => .ok []
  | g :: rest, i => do
      let sp ← listIndexE ghostSpawn i
      let rest' ← resetGhostsLoop rest (i + 1)
      .ok ({ g with position := sp, in_house := some true, is_vulnerable := false } :: rest')

/-- `GameCore._pacman_dies`.  Note: `ghosts_released` is reset to 1 and
ghost 0 is un-housed, but `ghost_release_timer` is *not* reset. -/
def pacmanDies (s : GState) : Except PyErr GState := do
  let pac ← readAttr s.pacman "lose_life"
  let (pac, alive) := loseLife pac
  if alive then
    let pac := resetPosition pac pacmanSpawn
    let ghosts ← resetGhostsLoop s.ghosts 0
    let ghosts := listModify (fun g => { g with in_house := some false }) ghosts 0
    .ok { s with pacman := some pac, ghosts := ghosts, ghosts_released := 1 }
  else
    .ok { s with pacman := some pac, game_state := "GAME_OVER" }

/-- The inner loop of `GameCore._check_ghost_collisions`: skip housed
ghosts, and at the first ghost sharing Pac-Man's cell either eat it (if
vulnerable) or die, then `break`. -/
def collideLoop (s : GState) : List GhostE → Nat → Except PyErr GState
  | [], _ => .ok s
  | g :: rest, i => do
      let ih ← readAttr g.in_house "in_house"
      if ih then collideLoop s rest (i + 1)
      else do
        let pac ← readAttr s.pacman "position"
        if pac.position = g.position then
          if g.is_vulnerable then eatGhost s i else pacmanDies s
        else collideLoop s rest (i + 1)

/-- `GameCore._check_ghost_collisions`. -/
def checkGhostCollisions (s : GState) : Except PyErr GState :=
  collideLoop s s.ghosts 0

/-- `GameCore._advance_level`: bump the level, then `_setup_level` (which
creates a *fresh* `PacMan(PACMAN_SPAWN, lives=3)`). -/
def advanceLevel (s : GState) : GState :=
  setupLevel { s with level := s.level + 1 }

/-- `GameCore.update`: the per-tick algorithm. -/
def update (ch : Chooser) (s : GState) : Except PyErr GState :=
  if s.game_state ≠ "PLAYING" then .ok s
  else do
    let s ←
      if s.power_pellet_active then
        let s := { s with power_pellet_timer := s.power_pellet_timer - 1 }
        if s.power_pellet_timer ≤ 0 then pure (deactivatePowerPellet s) else pure s
      else pure s
    let s ← updatePacmanMovement s
    let s := updateGhostRelease s
    let s ← moveGhostsLoop ch s
    let s ← checkGhostCollisions s
    if s.food_positions = [] ∧ s.power_pellet_positions = [] then
      .ok (advanceLevel s)
    else .ok s

/-- A concrete chooser: `random.choice` happened to return the first
element (an outcome of positive probability on any non-empty list). -/
def chFirst : Chooser := fun l => l.head?

/-! ## Definitions supporting the claim theorems -/

/-- Decidable equality of `Except` results, for evaluating concrete runs. -/
instance instDecEqExcept [DecidableEq ε] [DecidableEq α] : DecidableEq (Except ε α) :=
  fun x y =>
    match x, y with
    | .ok a, .ok b =>
        if h : a = b then isTrue (by rw [h]) else isFalse (fun hh => by cases hh; exact h rfl)
    | .error a, .error b =>
        if h : a = b then isTrue (by rw [h]) else isFalse (fun hh => by cases hh; exact h rfl)
    | .ok _, .error _ => isFalse (fun hh => by cases hh)
    | .error _, .ok _ => isFalse (fun hh => by cases hh)

/-- The in-bounds `maze == 0` orthogonal neighbours in scan order, with *no*
reversal filter (what `_get_valid_moves` computes once `last_direction` is
`(0,0)`). -/
def legalNeighbors (m : List (List Int)) (pos : Pos) : List Pos :=
  directionsList.foldl
    (fun acc d =>
      let nr := pos.1 + d.1
      let nc := pos.2 + d.2
      if inBoundsOf m nr nc = true ∧ cellAt m nr nc = 0 then
        acc ++ [(nr, nc)]
      else acc)
    []

/-- First element of a list strictly minimising `f` (later elements replace
the incumbent only when strictly smaller). -/
def selectFirstMinBy (f : Pos → Nat) (l : List Pos) : Option Pos :=
  l.foldl
    (fun best p =>
      match best with
      | none => some p
      | some b => if f p < f b then some p else best)
    none

/-- The step rule exactly as claim C7 words it (a refinement-style second
definition, written from the spec, to be compared against the code's
`moveTowardsTarget`): enumerate the four orthogonal neighbours, keep those
legal for *adversary traversal* (`can_ghost_move_to`), discard the direct
reversal of the last move *unless that reversal is the only legal option*,
and choose the remaining neighbour minimising Manhattan distance to the
target with ties broken by the scan order up, down, left, right; stay in
place (`none`) if no legal neighbour exists. -/
def c7ClaimStep (pos last target : Pos) : Option Pos :=
  let nbrs : List (Pos × Pos) := directionsList.filterMap
    (fun d =>
      let p : Pos := (pos.1 + d.1, pos.2 + d.2)
      if canGhostMoveTo p.1 p.2 then some (d, p) else none)
  let nonRev := nbrs.filter (fun dp => decide (dp.1 ≠ (-last.1, -last.2)))
  let cands := if nonRev.isEmpty then nbrs else nonRev
  selectFirstMinBy (fun p => manhattan p target) (cands.map Prod.snd)

/-- "After the move, `last_direction` is `(0,0)`" or "nothing was committed
and both the position and `last_direction` are untouched". -/
def zeroedOrUnmoved (gAfter gBefore : GhostE) : Prop :=
  gAfter.last_direction = (0, 0) ∨
    (gAfter.position = gBefore.position ∧ gAfter.last_direction = gBefore.last_direction)

/-- A ghost skipped by the collision loop: housed, or not on Pac-Man's cell. -/
def skippedBy (pacPos : Pos) (g : GhostE) : Prop :=
  g.in_house = some true ∨ (g.in_house = some false ∧ pacPos ≠ g.position)

/-- Concrete state for C2: mid-game on level 2, score 100, two lives left,
both pellet sets just emptied (cadence gate closed this tick so the player
holds position; no ghosts in the field to keep the tick deterministic). -/
def stateC2 : GState :=
  { initCore with
      game_state := "PLAYING"
      level := 2
      maze := mazeTemplate
      food_positions := []
      power_pellet_positions := []
      pacman := some { mkPacMan (16, 9) 3 with
                        lives := 2
                        score := 100
                        move_delay := some 0
                        move_frequency := some 100 }
      ghosts := [] }

/-- Concrete state for C3: playing, player at spawn facing RIGHT with the
cadence gate open, some food left elsewhere, no ghosts in the list. -/
def stateC3 : GState :=
  { initCore with
      game_state := "PLAYING"
      maze := mazeTemplate
      food_positions := [(1, 2)]
      power_pellet_positions := []
      pacman := some { mkPacMan (16, 9) 3 with move_delay := some 0, move_frequency := some 1 }
      ghosts := [] }

/-- Concrete state for C4's witness: a housed ghost first in the list, then
a vulnerable free ghost standing on Pac-Man's cell. -/
def stateC4 : GState :=
  { initCore with
      game_state := "PLAYING"
      maze := mazeTemplate
      food_positions := [(1, 2)]
      pacman := some { mkPacMan (10, 12) 3 with score := 300 }
      ghosts :=
        [{ mkGhost (10, 9) "pinky" with in_house := some true },
         { mkGhost (10, 12) "blinky" with in_house := some false, is_vulnerable := true,
                                          vulnerable_timer := 400, frightened_timer := 400 }] }

/-- Concrete state for C5: two lives, the release timer already at 500
(well past every release threshold), all four ghosts out in the field. -/
def stateC5 : GState :=
  { initCore with
      game_state := "PLAYING"
      maze := mazeTemplate
      food_positions := [(1, 2)]
      pacman := some { mkPacMan (14, 9) 3 with lives := 2, score := 700 }
      ghosts :=
        [{ mkGhost (14, 9) "blinky" with in_house := some false },
         { mkGhost (4, 4) "pinky" with in_house := some false },
         { mkGhost (4, 14) "inky" with in_house := some false },
         { mkGhost (6, 6) "clyde" with in_house := some false }]
      ghost_release_timer := 500
      ghosts_released := 4 }

/-- Concrete vulnerable Blinky on a decision tick at (16,9) for C6. -/
def ghostC6 : GhostE :=
  { mkGhost (16, 9) "blinky" with move_counter := 19, is_vulnerable := true,
                                  vulnerable_timer := 300, frightened_timer := 300 }

/-- Concrete state for C8/C3 witnesses: cadence gate open, player at
(16, 9) facing RIGHT with "UP" queued (a wall at (15, 9)). -/
def stateC8 : GState :=
  { initCore with
      game_state := "PLAYING"
      maze := mazeTemplate
      food_positions := [(16, 10)]
      power_pellet_positions := []
      pacman := some { mkPacMan (16, 9) 3 with
                        next_direction := some "LEFT"
                        move_delay := some 0
                        move_frequency := some 1 }
      ghosts := [] }

/-! ## Claim theorems -/

/-- C1: the claim says every branch of the per-tick algorithm has a defined
fallback, so the first `update()` after `start_new_game()` completes without
raising.  In fact that very tick reads `self.pacman.move_delay`, which
`PacMan.__init__` never defines, and raises `AttributeError` — whatever the
random source does. -/
theorem c1_first_tick_raises_attribute_error (ch : Chooser) :
    update ch (startNewGame initCore) = .error (PyErr.attrError "move_delay") := by
  rfl

/-- C9: while the phase is not `PLAYING`, `update()` returns immediately and
the whole session state (entities, pellet sets, level, countdowns) is
unchanged. -/
theorem c9_update_outside_playing_is_noop (ch : Chooser) (s : GState)
    (h : s.game_state ≠ "PLAYING") : update ch s = .ok s := by
  simp [update, h]

/-- Witness for C9 at the freshly constructed core (phase `MENU`). -/
theorem c9_update_outside_playing_is_noop_witness :
    initCore.game_state ≠ "PLAYING" ∧ update chFirst initCore = .ok initCore :=
  ⟨by decide, c9_update_outside_playing_is_noop chFirst initCore (by decide)⟩

/-- C2: on the tick after both pellet sets empty, the level does increment
by exactly 1 and the regenerated pellet sets are non-empty, but the
player's score and lives are NOT preserved: `_setup_level` constructs a
fresh `PacMan(PACMAN_SPAWN, lives=3)`, so a score of 100 and 2 remaining
lives become 0 and 3. -/
theorem c2_advance_resets_score_and_lives :
    stateC2.pacman.map PacManE.score = some 100 ∧
    stateC2.pacman.map PacManE.lives = some 2 ∧
    stateC2.level = 2 ∧
    (update chFirst stateC2).map
        (fun s => (s.level, s.pacman.map PacManE.score, s.pacman.map PacManE.lives,
                   s.food_positions.isEmpty, s.power_pellet_positions.isEmpty))
      = .ok (3, some 0, some 3, false, false) := by
  refine ⟨rfl, rfl, rfl, ?_⟩
  decide

/-- `Except.bind` on a success reduces to the continuation. -/
theorem bindE_ok (x : α) (f : α → Except PyErr β) :
    (Except.ok x >>= f : Except PyErr β) = f x := rfl

/-- `Except.bind` propagates errors. -/
theorem bindE_error (e : PyErr) (f : α → Except PyErr β) :
    (Except.error e >>= f : Except PyErr β) = .error e := rfl

/-- If the body succeeds on every element, the loop succeeds. -/
theorem mapME_ok_of_forall {f : α → Except PyErr β} :
    ∀ l : List α, (∀ a ∈ l, ∃ b, f a = .ok b) → ∃ l', mapME f l = .ok l' := by
  intro l h
  induction l with
  | nil => exact ⟨[], rfl⟩
  | cons a rest ih =>
      obtain ⟨b, hb⟩ := h a (List.mem_cons_self a rest)
      obtain ⟨l', hl'⟩ := ih (fun x hx => h x (List.mem_cons_of_mem a hx))
      exact ⟨b :: l', by simp [mapME, hb, hl', bindE_ok]⟩

/-- `_activate_power_pellet` succeeds when every ghost's `in_house` is
defined, and never touches the player or the pellet sets. -/
theorem activatePowerPellet_ok (s : GState)
    (hgh : ∀ g ∈ s.ghosts, g.in_house ≠ none) :
    ∃ s', activatePowerPellet s = .ok s' ∧ s'.pacman = s.pacman ∧
      s'.food_positions = s.food_positions ∧
      s'.power_pellet_positions = s.power_pellet_positions := by
  have hgg : ∀ g ∈ s.ghosts, ∃ b,
      (do
        let ih ← readAttr g.in_house "in_house"
        if ih = false then
          pure { g with is_vulnerable := true, vulnerable_timer := s.power_pellet_duration }
        else pure g : Except PyErr GhostE) = .ok b := by
    intro g hg
    cases hih : g.in_house with
    | none => exact absurd hih (hgh g hg)
    | some b => cases b <;> exact ⟨_, rfl⟩
  obtain ⟨l', hl'⟩ := mapME_ok_of_forall s.ghosts hgg
  refine ⟨{ s with power_pellet_active := true,
                   power_pellet_timer := s.power_pellet_duration,
                   ghosts := l' }, ?_, rfl, rfl, rfl⟩
  simp only [activatePowerPellet, hl', bindE_ok]

/-- `_check_food_collision` succeeds (given defined `in_house` flags for the
power-pellet branch) and keeps the player's position, facing and queued
direction. -/
theorem checkFoodCollision_fields (s : GState) (pac : PacManE)
    (hpac : s.pacman = some pac)
    (hgh : ∀ g ∈ s.ghosts, g.in_house ≠ none) :
    ∃ s', checkFoodCollision s = .ok s' ∧
      s'.pacman.map PacManE.position = some pac.position ∧
      s'.pacman.map PacManE.direction = some pac.direction ∧
      s'.pacman.map PacManE.next_direction = some pac.next_direction := by
  simp only [checkFoodCollision, hpac, readAttr, bindE_ok]
  split_ifs with h1 h2
  · exact ⟨_, rfl, rfl, rfl, rfl⟩
  · obtain ⟨s', hs', hp, _, _⟩ := activatePowerPellet_ok
      { s with power_pellet_positions := s.power_pellet_positions.erase pac.position,
               pacman := some { pac with score := pac.score + 50 } }
      hgh
    refine ⟨s', hs', ?_, ?_, ?_⟩ <;> rw [hp] <;> rfl
  · exact ⟨s, rfl, by rw [hpac]; rfl, by rw [hpac]; rfl, by rw [hpac]; rfl⟩

/-- C3 counterexample: in `PLAYING`, delivering the malformed direction
"FOO" and then ticking does NOT leave the state as a no-input tick would.
The malformed string is stored as `next_direction`; on the movement tick its
offset lookup defaults to `(0,0)`, the stationary cell passes
`can_pacman_move_to`, and the facing direction *becomes* `"FOO"` while the
player halts — whereas with no input the player steps from (16,9) to
(16,10). -/
theorem c3_malformed_input_not_ignored :
    (handleInput "FOO" stateC3 >>= update chFirst) ≠ update chFirst stateC3 ∧
    (handleInput "FOO" stateC3 >>= update chFirst).map (fun s => s.pacman.map PacManE.direction)
      = .ok (some "FOO") ∧
    (handleInput "FOO" stateC3 >>= update chFirst).map (fun s => s.pacman.map PacManE.position)
      = .ok (some (16, 9)) ∧
    (update chFirst stateC3).map (fun s => s.pacman.map PacManE.position)
      = .ok (some (16, 10)) := by
  refine ⟨by decide, by decide, by decide, by decide⟩

/-- C3 amended: a direction string outside
{UP, DOWN, LEFT, RIGHT, PAUSE, ""} delivered during `PLAYING` is *not*
silently ignored: it is stored as the queued direction, and on the next
cadence-open movement tick the offset lookup defaults to `(0,0)`, the
player's own (traversable) cell passes the check, so the facing direction
becomes the malformed string and the player halts in place for that tick
instead of continuing in its previous direction. -/
theorem c3_amended_malformed_direction_is_stored
    (s : GState) (pac : PacManE) (q : String) (d f : Int)
    (hplay : s.game_state = "PLAYING")
    (hpac : s.pacman = some pac)
    (hup : q ≠ "UP") (hdn : q ≠ "DOWN") (hlt : q ≠ "LEFT") (hrt : q ≠ "RIGHT")
    (hps : q ≠ "PAUSE") (hne : q ≠ "")
    (hmd : pac.move_delay = some d) (hmf : pac.move_frequency = some f)
    (hgate : ¬ d + 1 < f)
    (hcell : canPacmanMoveTo pac.position.1 pac.position.2 = true)
    (hfood : pac.position ∉ s.food_positions)
    (hpp : pac.position ∉ s.power_pellet_positions) :
    (handleInput q s >>= updatePacmanMovement)
      = .ok { s with pacman := some { pac with next_direction := some q, direction := q,
                                               move_delay := some 0 } } := by
  have hoff : dirOffset q = (0, 0) := by simp [dirOffset, hup, hdn, hlt, hrt]
  have h1 : handleInput q s
      = .ok { s with pacman := some { pac with next_direction := some q } } := by
    simp [handleInput, hplay, hps, hpac, readAttr, bindE_ok]
  rw [h1, bindE_ok]
  simp only [updatePacmanMovement, readAttr, bindE_ok, hmd, hmf]
  rw [if_neg hgate]
  simp only [truthyOptStr, hne, Option.getD_some, hoff]
  rw [if_pos ?_]
  · simp only [checkFoodCollision, readAttr, bindE_ok]
    rw [if_neg ?_, if_neg ?_]
    · simp
    · simpa using hpp
    · simpa using hfood
  · constructor
    · simp [hne]
    · simpa using hcell

/-- Witness for the amended C3 at a concrete reachable-shape state. -/
theorem c3_amended_malformed_direction_is_stored_witness :
    (handleInput "FOO" stateC3 >>= updatePacmanMovement)
      = .ok { stateC3 with
                pacman := some { mkPacMan (16, 9) 3 with
                                  next_direction := some "FOO"
                                  direction := "FOO"
                                  move_delay := some 0
                                  move_frequency := some 1 } } :=
  c3_amended_malformed_direction_is_stored stateC3
    { mkPacMan (16, 9) 3 with move_delay := some 0, move_frequency := some 1 }
    "FOO" 0 1 rfl rfl (by decide) (by decide) (by decide) (by decide) (by decide)
    (by decide) rfl rfl (by decide) (by decide) (by decide) (by decide)

/-- C8: after the cadence gate opens with a genuine direction queued, the
orchestrator first tries the queued direction against `can_pacman_move_to`;
if that cell is legal the facing switches and the move commits there;
otherwise it retries the current facing direction (through the tunnel wrap)
and commits if legal; if neither is legal the position is unchanged — and
in every case the queued direction stays pending. -/
theorem c8_queued_direction_buffering
    (s : GState) (pac : PacManE) (q : String) (d f : Int)
    (hpac : s.pacman = some pac)
    (hq : pac.next_direction = some q)
    (hq4 : q = "UP" ∨ q = "DOWN" ∨ q = "LEFT" ∨ q = "RIGHT")
    (hmd : pac.move_delay = some d) (hmf : pac.move_frequency = some f)
    (hgate : ¬ d + 1 < f)
    (hgh : ∀ g ∈ s.ghosts, g.in_house ≠ none) :
    (canPacmanMoveTo (pac.position.1 + (dirOffset q).1)
        (pac.position.2 + (dirOffset q).2) = true →
      ∃ s', updatePacmanMovement s = .ok s' ∧
        s'.pacman.map PacManE.direction = some q ∧
        s'.pacman.map PacManE.position
          = some (pac.position.1 + (dirOffset q).1, pac.position.2 + (dirOffset q).2) ∧
        s'.pacman.map PacManE.next_direction = some (some q)) ∧
    (canPacmanMoveTo (pac.position.1 + (dirOffset q).1)
        (pac.position.2 + (dirOffset q).2) = false →
      canPacmanMoveTo
          (handleTunnelTeleport (pac.position.1 + (dirOffset pac.direction).1)
            (pac.position.2 + (dirOffset pac.direction).2)).1
          (handleTunnelTeleport (pac.position.1 + (dirOffset pac.direction).1)
            (pac.position.2 + (dirOffset pac.direction).2)).2 = true →
      ∃ s', updatePacmanMovement s = .ok s' ∧
        s'.pacman.map PacManE.direction = some pac.direction ∧
        s'.pacman.map PacManE.position
          = some (handleTunnelTeleport (pac.position.1 + (dirOffset pac.direction).1)
              (pac.position.2 + (dirOffset pac.direction).2)) ∧
        s'.pacman.map PacManE.next_direction = some (some q)) ∧
    (canPacmanMoveTo (pac.position.1 + (dirOffset q).1)
        (pac.position.2 + (dirOffset q).2) = false →
      canPacmanMoveTo
          (handleTunnelTeleport (pac.position.1 + (dirOffset pac.direction).1)
            (pac.position.2 + (dirOffset pac.direction).2)).1
          (handleTunnelTeleport (pac.position.1 + (dirOffset pac.direction).1)
            (pac.position.2 + (dirOffset pac.direction).2)).2 = false →
      updatePacmanMovement s
        = .ok { s with pacman := some { pac with move_delay := some 0 } }) := by
  have hne : q ≠ "" := by rcases hq4 with h | h | h | h <;> subst h <;> decide
  have hupm : updatePacmanMovement s = (
      let pac2 : PacManE := { pac with move_delay := some 0 }
      let s2 : GState := { s with pacman := some pac2 }
      if truthyOptStr pac2.next_direction = true ∧
          canPacmanMoveTo (pac2.position.1 + (dirOffset (pac2.next_direction.getD "")).1)
            (pac2.position.2 + (dirOffset (pac2.next_direction.getD "")).2) = true then
        checkFoodCollision
          { s2 with pacman := some { pac2 with
                                      direction := pac2.next_direction.getD ""
                                      position :=
                                        (pac2.position.1 + (dirOffset (pac2.next_direction.getD "")).1,
                                         pac2.position.2 + (dirOffset (pac2.next_direction.getD "")).2) } }
      else tryCurrentDirection s2 pac2) := by
    simp only [updatePacmanMovement, hpac, readAttr, bindE_ok, hmd, hmf]
    rw [if_neg hgate]
  refine ⟨?_, ?_, ?_⟩
  · intro hcan
    rw [hupm]
    simp only [hq, truthyOptStr, hne, Option.getD_some]
    rw [if_pos ⟨by simp [hne], by simpa using hcan⟩]
    obtain ⟨s', hs', hpos, hdir, hnext⟩ := checkFoodCollision_fields
      { s with pacman := some { pac with
                                 next_direction := some q
                                 move_delay := some 0
                                 direction := q
                                 position := (pac.position.1 + (dirOffset q).1,
                                              pac.position.2 + (dirOffset q).2) } }
      { pac with next_direction := some q, move_delay := some 0, direction := q,
                 position := (pac.position.1 + (dirOffset q).1,
                              pac.position.2 + (dirOffset q).2) } rfl hgh
    exact ⟨s', hs', by simpa using hdir, by simpa using hpos, by simpa using hnext⟩
  · intro hcan hcur
    rw [hupm]
    simp only [hq, truthyOptStr, hne, Option.getD_some]
    rw [if_neg (by simp [hcan])]
    simp only [tryCurrentDirection]
    rw [if_pos (by simpa using hcur)]
    obtain ⟨s', hs', hpos, hdir, hnext⟩ := checkFoodCollision_fields
      { s with pacman := some { pac with
                                 next_direction := some q
                                 move_delay := some 0
                                 position :=
                                   handleTunnelTeleport (pac.position.1 + (dirOffset pac.direction).1)
                                     (pac.position.2 + (dirOffset pac.direction).2) } }
      { pac with next_direction := some q, move_delay := some 0,
                 position := handleTunnelTeleport (pac.position.1 + (dirOffset pac.direction).1)
                   (pac.position.2 + (dirOffset pac.direction).2) } rfl hgh
    exact ⟨s', hs', by simpa using hdir, by simpa using hpos, by simpa using hnext⟩
  · intro hcan hcur
    rw [hupm]
    simp only [hq, truthyOptStr, hne, Option.getD_some]
    rw [if_neg (by simp [hcan])]
    simp only [tryCurrentDirection]
    rw [if_neg (by simp [hcur])]

/-- Witness for C8: at `stateC8` the queued "LEFT" is legal, so the facing
switches to LEFT and the player steps to (16, 8). -/
theorem c8_queued_direction_buffering_witness :
    ∃ s', updatePacmanMovement stateC8 = .ok s' ∧
      s'.pacman.map PacManE.direction = some "LEFT" ∧
      s'.pacman.map PacManE.position = some (16 + (dirOffset "LEFT").1, 9 + (dirOffset "LEFT").2) ∧
      s'.pacman.map PacManE.next_direction = some (some "LEFT") := by
  have h := (c8_queued_direction_buffering stateC8
    { mkPacMan (16, 9) 3 with next_direction := some "LEFT",
                              move_delay := some 0, move_frequency := some 1 }
    "LEFT" 0 1 rfl rfl (by decide) rfl rfl (by decide) (by decide)).1 (by decide)
  exact h

/-- `update_vulnerability` never moves the ghost. -/
theorem updateVulnerability_position (g : GhostE) :
    (updateVulnerability g).position = g.position := by
  simp only [updateVulnerability]
  split_ifs <;> rfl

/-- `update_vulnerability` never touches `last_direction`. -/
theorem updateVulnerability_last (g : GhostE) :
    (updateVulnerability g).last_direction = g.last_direction := by
  simp only [updateVulnerability]
  split_ifs <;> rfl

/-- The common tail of every ghost `move`: committing (or not) and then
updating vulnerability either zeroes `last_direction` or leaves position
and `last_direction` untouched. -/
theorem commit_then_uv (g2 gB : GhostE) (np : Option Pos)
    (h2p : g2.position = gB.position) (h2l : g2.last_direction = gB.last_direction) :
    zeroedOrUnmoved (updateVulnerability (commitMove g2 np)) gB := by
  cases np with
  | none =>
      right
      exact ⟨by rw [updateVulnerability_position]; exact h2p,
             by rw [updateVulnerability_last]; exact h2l⟩
  | some p =>
      left
      rw [updateVulnerability_last]
      simp [commitMove]

/-- Every ghost `move` is a cadence test, an optional commit, and an
`update_vulnerability` pass. -/
theorem ghost_move_shape (cond : Prop) [Decidable cond] (g1 g2 : GhostE) (np : Option Pos)
    (gB : GhostE) (h1p : g1.position = gB.position) (h1l : g1.last_direction = gB.last_direction)
    (h2p : g2.position = gB.position) (h2l : g2.last_direction = gB.last_direction) :
    zeroedOrUnmoved
      (if cond then updateVulnerability g1 else updateVulnerability (commitMove g2 np)) gB := by
  split_ifs
  · right
    exact ⟨by rw [updateVulnerability_position]; exact h1p,
           by rw [updateVulnerability_last]; exact h1l⟩
  · exact commit_then_uv g2 gB np h2p h2l

/-- C10: whenever a ghost's `move` commits a new position, the subsequent
`last_direction` assignment computes `next_pos - position` *after* the
position was already updated, so `last_direction` becomes `(0, 0)`; and
with `last_direction = (0, 0)` the U-turn filter of `_get_valid_moves`
excludes no neighbour (no direction equals `(0, 0)`).  Consequently each of
the four `move` implementations either ends with `last_direction = (0, 0)`
or did not move at all. -/
theorem c10_last_direction_always_zero :
    (∀ (g : GhostE) (p : Pos), (commitMove g (some p)).last_direction = (0, 0)) ∧
    (∀ (m : List (List Int)) (pos : Pos), getValidMoves m pos (0, 0) = legalNeighbors m pos) ∧
    (∀ (ch : Chooser) (m : List (List Int)) (pp : Option Pos) (g : GhostE),
        zeroedOrUnmoved (blinkyMove ch m pp g) g) ∧
    (∀ (ch : Chooser) (m : List (List Int)) (pp : Option Pos) (pd : PyObjArg) (g : GhostE),
        zeroedOrUnmoved (pinkyMove ch m pp pd g) g) ∧
    (∀ (ch : Chooser) (m : List (List Int)) (pp : Option Pos) (g : GhostE),
        zeroedOrUnmoved (inkyMove ch m pp g) g) ∧
    (∀ (ch : Chooser) (m : List (List Int)) (pp : Option Pos) (g : GhostE),
        zeroedOrUnmoved (clydeMove ch m pp g) g) := by
  refine ⟨?_, ?_, ?_, ?_, ?_, ?_⟩
  · intro g p
    simp [commitMove]
  · intro m pos
    simp [getValidMoves, legalNeighbors, directionsList]
  · intro ch m pp g
    simp only [blinkyMove]
    exact ghost_move_shape _ _ _ _ _ rfl rfl rfl rfl
  · intro ch m pp pd g
    simp only [pinkyMove]
    exact ghost_move_shape _ _ _ _ _ rfl rfl rfl rfl
  · intro ch m pp g
    simp only [inkyMove]
    exact ghost_move_shape _ _ _ _ _ rfl rfl rfl rfl
  · intro ch m pp g
    simp only [clydeMove]
    exact ghost_move_shape _ _ _ _ _ rfl rfl rfl rfl

/-- The amended C7 step rule: first scan-order minimiser of Manhattan
distance to the target over the list `_get_valid_moves` builds (in-bounds
`maze == 0` neighbours, the direct reversal always excluded). -/
def amendedStepC7 (m : List (List Int)) (pos last target : Pos) : Option Pos :=
  selectFirstMinBy (fun p => manhattan p target) (getValidMoves m pos last)

/-- Once the select fold holds a candidate it never returns `none`. -/
theorem selectFold_some_ne_none (f : Pos → Nat) :
    ∀ (l : List Pos) (b : Pos),
      l.foldl
        (fun best p =>
          match best with
          | none => some p
          | some c => if f p < f c then some p else best)
        (some b) ≠ none := by
  intro l
  induction l with
  | nil => intro b; simp
  | cons p rest ih =>
      intro b
      simp only [List.foldl_cons]
      by_cases h : f p < f b <;> simp [h] <;> apply ih

/-- `selectFirstMinBy` returns `none` exactly on the empty list. -/
theorem selectFirstMinBy_eq_none_iff (f : Pos → Nat) (l : List Pos) :
    selectFirstMinBy f l = none ↔ l = [] := by
  cases l with
  | nil => simp [selectFirstMinBy]
  | cons p rest =>
      simp only [selectFirstMinBy, List.foldl_cons]
      exact iff_of_false (selectFold_some_ne_none f rest p) (by simp)

/-- Appending-accumulator folds factor through their initial segment. -/
theorem foldl_acc_append {α β : Type} (h : β → List α) :
    ∀ (ds : List β) (l0 : List α),
      ds.foldl (fun acc d => acc ++ h d) l0 = l0 ++ ds.foldl (fun acc d => acc ++ h d) [] := by
  intro ds
  induction ds with
  | nil => intro l0; simp
  | cons d rest ih =>
      intro l0
      simp only [List.foldl_cons, List.nil_append]
      rw [ih (l0 ++ h d), ih (h d), List.append_assoc]

/-- The fused best-tracking fold of `_move_towards_target` equals first
collecting the admissible neighbours (`_get_valid_moves` style) and then
taking the first strict minimiser. -/
theorem fused_eq_select (P : Pos → Prop) [DecidablePred P] (emb : Pos → Pos) (F : Pos → Nat) :
    ∀ (ds : List Pos) (o : Option Pos),
      ((ds.foldl
          (fun (best : Option (Pos × Nat)) d =>
            if P d then
              match best with
              | none => some (emb d, F (emb d))
              | some pr => if F (emb d) < pr.2 then some (emb d, F (emb d)) else best
            else best)
          (o.map fun p => (p, F p))).map Prod.fst)
      = (ds.foldl (fun acc d => if P d then acc ++ [emb d] else acc) []).foldl
          (fun best p =>
            match best with
            | none => some p
            | some b => if F p < F b then some p else best) o := by
  intro ds
  induction ds with
  | nil =>
      intro o
      simp only [List.foldl_nil]
      cases o <;> simp
  | cons d rest ih =>
      intro o
      simp only [List.foldl_cons]
      by_cases hd : P d
      · rw [if_pos hd, if_pos hd]
        have hstep : (match o.map (fun p => (p, F p)) with
            | none => some (emb d, F (emb d))
            | some pr =>
                if F (emb d) < pr.2 then some (emb d, F (emb d))
                else o.map (fun p => (p, F p)))
            = ((match o with
                | none => some (emb d)
                | some b => if F (emb d) < F b then some (emb d) else o).map
                  (fun p => (p, F p))) := by
          cases o with
          | none => simp
          | some b => by_cases hc : F (emb d) < F b <;> simp [hc]
        rw [hstep, ih]
        have hgv : (fun (acc : List Pos) d => if P d then acc ++ [emb d] else acc)
            = (fun acc d => acc ++ (if P d then [emb d] else [])) := by
          funext acc d
          by_cases h : P d <;> simp [h]
        rw [hgv, foldl_acc_append (fun d => if P d then [emb d] else []) rest ([] ++ [emb d])]
        simp only [List.nil_append]
        rw [List.foldl_append]
        simp only [List.foldl_cons, List.foldl_nil]
      · rw [if_neg hd, if_neg hd]
        exact ih o

/-- C7 amended: `_move_towards_target` enumerates the four orthogonal
neighbours in scan order up, down, left, right, keeps only in-bounds cells
whose maze value is `PATH` (0) — so, unlike `can_ghost_move_to`, house
interior and door cells are excluded — *always* discards the direct
reversal of `last_direction` (no only-legal-option exception), and commits
the first remaining neighbour minimising Manhattan distance to the target;
it returns `None` (the ghost stays in place for the tick) exactly when
that filtered neighbour list is empty. -/
theorem c7_amended_step_rule (m : List (List Int)) (pos last target : Pos) :
    moveTowardsTarget m pos last target = amendedStepC7 m pos last target ∧
    (moveTowardsTarget m pos last target = none ↔ getValidMoves m pos last = []) := by
  have h := fused_eq_select
    (fun d : Pos => inBoundsOf m (pos.1 + d.1) (pos.2 + d.2) = true ∧
      cellAt m (pos.1 + d.1) (pos.2 + d.2) = 0 ∧ d ≠ (-last.1, -last.2))
    (fun d : Pos => ((pos.1 + d.1, pos.2 + d.2) : Pos))
    (fun p => manhattan p target) directionsList none
  have hmain : moveTowardsTarget m pos last target = amendedStepC7 m pos last target := by
    simpa [moveTowardsTarget, amendedStepC7, selectFirstMinBy, getValidMoves] using h
  refine ⟨hmain, ?_⟩
  rw [hmain, amendedStepC7]
  exact selectFirstMinBy_eq_none_iff _ _

/-- C7 counterexample: at the house-interior cell (10, 9) with no movement
history and target (5, 9), the claimed rule (adversary-traversal legality
via `can_ghost_move_to`, reversal dropped only when avoidable) commits the
door cell (9, 9), but `_move_towards_target` — which only accepts
`maze == 0` cells — finds no candidate and stays in place. -/
theorem c7_counterexample_house_cell :
    c7ClaimStep (10, 9) (0, 0) (5, 9) = some (9, 9) ∧
    moveTowardsTarget mazeTemplate (10, 9) (0, 0) (5, 9) = none ∧
    canGhostMoveTo 9 9 = true ∧
    getValidMoves mazeTemplate (10, 9) (0, 0) = [] := by
  refine ⟨by decide, by decide, by decide, by decide⟩

/-- `chFirst` satisfies the `random.choice` contract. -/
theorem chooserOk_chFirst : ChooserOk chFirst := by
  intro l hl
  cases l with
  | nil => exact absurd rfl hl
  | cons a rest => exact ⟨a, List.mem_cons_self a rest, rfl⟩

/-- C6 counterexample: with the player at (1, 1), the farthest corner is
(19, 17) and the unique distance-minimising flee step from (16, 9) would be
(16, 10); but the vulnerable ghost's `move` ignores the passed target and
takes `random.choice` of the valid moves, which (drawing the first element,
an outcome of positive probability) commits (16, 8) instead. -/
theorem c6_counterexample_random_flight :
    getScatterTarget ghostC6 true (1, 1) = (19, 17) ∧
    moveTowardsTarget mazeTemplate (16, 9) (0, 0) (19, 17) = some (16, 10) ∧
    getValidMoves mazeTemplate (16, 9) (0, 0) = [(16, 8), (16, 10)] ∧
    ghostC6.is_vulnerable = true ∧
    (blinkyMove chFirst mazeTemplate (some (19, 17)) ghostC6).position = (16, 8) ∧
    ((16, 8) : Pos) ≠ (16, 10) := by
  refine ⟨by decide, by decide, by decide, by decide, by decide, by decide⟩

/-- The shared random tail of every vulnerable-branch `move`: the result
either stays put (empty valid-move list) or lands on a `_get_valid_moves`
neighbour. -/
theorem randomCore_position (ch : Chooser) (hok : ChooserOk ch)
    (m : List (List Int)) (g gm : GhostE)
    (hcore : gm = updateVulnerability (commitMove
      { g with move_counter := 0 }
      (chooseRandomMove ch (getValidMoves m g.position g.last_direction)))) :
    gm.position = g.position ∨
      gm.position ∈ getValidMoves m g.position g.last_direction := by
  rw [hcore]
  by_cases hvm : getValidMoves m g.position g.last_direction = []
  · left
    rw [updateVulnerability_position]
    simp [chooseRandomMove, hvm, commitMove]
  · obtain ⟨x, hx, hch⟩ := hok _ hvm
    right
    rw [updateVulnerability_position]
    simp [chooseRandomMove, hvm, hch, commitMove, hx]

/-- C6 amended: on a decision tick of a `VULNERABLE` adversary — whichever
of the four archetypes — the orchestrator's target selection does return
the farthest-corner flee target, but the adversary's `move` *ignores* the
passed target entirely (the result is identical for any two targets, and
for Pinky also for any `pacman_direction` argument) and commits a
uniformly random legal non-reversal neighbour, staying in place when
there is none. -/
theorem c6_amended_vulnerable_moves_randomly (ch : Chooser) (hok : ChooserOk ch)
    (m : List (List Int)) (t t' : Pos) (pd pd' : PyObjArg) (g : GhostE) (pac : PacManE)
    (hv : g.is_vulnerable = true) (htick : ¬ g.move_counter + 1 < 20) :
    getGhostTarget pac g = getScatterTarget g true pac.position ∧
    blinkyMove ch m (some t) g = blinkyMove ch m (some t') g ∧
    pinkyMove ch m (some t) pd g = pinkyMove ch m (some t') pd' g ∧
    inkyMove ch m (some t) g = inkyMove ch m (some t') g ∧
    clydeMove ch m (some t) g = clydeMove ch m (some t') g ∧
    ((blinkyMove ch m (some t) g).position = g.position ∨
      (blinkyMove ch m (some t) g).position ∈ getValidMoves m g.position g.last_direction) ∧
    ((pinkyMove ch m (some t) pd g).position = g.position ∨
      (pinkyMove ch m (some t) pd g).position ∈ getValidMoves m g.position g.last_direction) ∧
    ((inkyMove ch m (some t) g).position = g.position ∨
      (inkyMove ch m (some t) g).position ∈ getValidMoves m g.position g.last_direction) ∧
    ((clydeMove ch m (some t) g).position = g.position ∨
      (clydeMove ch m (some t) g).position ∈ getValidMoves m g.position g.last_direction) := by
  have hcoreB : ∀ u : Pos, blinkyMove ch m (some u) g = updateVulnerability (commitMove
      { g with move_counter := 0 }
      (chooseRandomMove ch (getValidMoves m g.position g.last_direction))) := by
    intro u
    simp [blinkyMove, htick, hv]
  have hcoreP : ∀ (u : Pos) (pda : PyObjArg),
      pinkyMove ch m (some u) pda g = updateVulnerability (commitMove
        { g with move_counter := 0 }
        (chooseRandomMove ch (getValidMoves m g.position g.last_direction))) := by
    intro u pda
    cases htr : truthyArg pda <;> simp [pinkyMove, htick, hv, htr]
  have hcoreI : ∀ u : Pos, inkyMove ch m (some u) g = updateVulnerability (commitMove
      { g with move_counter := 0 }
      (chooseRandomMove ch (getValidMoves m g.position g.last_direction))) := by
    intro u
    simp [inkyMove, htick, hv]
  have hcoreC : ∀ u : Pos, clydeMove ch m (some u) g = updateVulnerability (commitMove
      { g with move_counter := 0 }
      (chooseRandomMove ch (getValidMoves m g.position g.last_direction))) := by
    intro u
    simp [clydeMove, htick, hv]
  refine ⟨by simp [getGhostTarget, hv], ?_, ?_, ?_, ?_, ?_, ?_, ?_, ?_⟩
  · rw [hcoreB t, hcoreB t']
  · rw [hcoreP t pd, hcoreP t' pd']
  · rw [hcoreI t, hcoreI t']
  · rw [hcoreC t, hcoreC t']
  · exact randomCore_position ch hok m g _ (hcoreB t)
  · exact randomCore_position ch hok m g _ (hcoreP t pd)
  · exact randomCore_position ch hok m g _ (hcoreI t)
  · exact randomCore_position ch hok m g _ (hcoreC t)

/-- Witness for the amended C6 at the concrete vulnerable ghost on its
decision tick: target-ignoring and random-neighbour facts for all four
`move` implementations, and the orchestrator's flee-target equation. -/
theorem c6_amended_vulnerable_moves_randomly_witness :
    getGhostTarget (mkPacMan (1, 1) 3) ghostC6
      = getScatterTarget ghostC6 true (mkPacMan (1, 1) 3).position ∧
    blinkyMove chFirst mazeTemplate (some (1, 1)) ghostC6
      = blinkyMove chFirst mazeTemplate (some (19, 17)) ghostC6 ∧
    pinkyMove chFirst mazeTemplate (some (1, 1)) PyObjArg.otherA ghostC6
      = pinkyMove chFirst mazeTemplate (some (19, 17)) PyObjArg.noneA ghostC6 ∧
    inkyMove chFirst mazeTemplate (some (1, 1)) ghostC6
      = inkyMove chFirst mazeTemplate (some (19, 17)) ghostC6 ∧
    clydeMove chFirst mazeTemplate (some (1, 1)) ghostC6
      = clydeMove chFirst mazeTemplate (some (19, 17)) ghostC6 ∧
    ((blinkyMove chFirst mazeTemplate (some (1, 1)) ghostC6).position = ghostC6.position ∨
      (blinkyMove chFirst mazeTemplate (some (1, 1)) ghostC6).position
        ∈ getValidMoves mazeTemplate ghostC6.position ghostC6.last_direction) ∧
    ((pinkyMove chFirst mazeTemplate (some (1, 1)) PyObjArg.otherA ghostC6).position
        = ghostC6.position ∨
      (pinkyMove chFirst mazeTemplate (some (1, 1)) PyObjArg.otherA ghostC6).position
        ∈ getValidMoves mazeTemplate ghostC6.position ghostC6.last_direction) ∧
    ((inkyMove chFirst mazeTemplate (some (1, 1)) ghostC6).position = ghostC6.position ∨
      (inkyMove chFirst mazeTemplate (some (1, 1)) ghostC6).position
        ∈ getValidMoves mazeTemplate ghostC6.position ghostC6.last_direction) ∧
    ((clydeMove chFirst mazeTemplate (some (1, 1)) ghostC6).position = ghostC6.position ∨
      (clydeMove chFirst mazeTemplate (some (1, 1)) ghostC6).position
        ∈ getValidMoves mazeTemplate ghostC6.position ghostC6.last_direction) :=
  c6_amended_vulnerable_moves_randomly chFirst chooserOk_chFirst mazeTemplate
    (1, 1) (19, 17) PyObjArg.otherA PyObjArg.noneA ghostC6 (mkPacMan (1, 1) 3)
    (by decide) (by decide)

/-- Reading back from an in-place list update. -/
theorem listModify_get? (f : α → α) :
    ∀ (l : List α) (i j : Nat),
      (listModify f l i).get? j = if i = j then (l.get? j).map f else l.get? j := by
  intro l
  induction l with
  | nil => intro i j; cases i <;> simp [listModify]
  | cons a rest ih =>
      intro i j
      cases i with
      | zero => cases j <;> simp [listModify]
      | succ n =>
          cases j with
          | zero => simp [listModify]
          | succ k => simpa [listModify] using ih n k

/-- `GHOST_SPAWN[k]` succeeds below index 4. -/
theorem listIndexE_ghostSpawn (k : Nat) (hk : k < 4) :
    listIndexE ghostSpawn k = .ok (ghostSpawn.getD k (0, 0)) := by
  interval_cases k <;> rfl

/-- The ghost-reset loop of `_pacman_dies`: with at most four ghosts it
succeeds and sends ghost `j` home to `GHOST_SPAWN[k+j]`, housed and not
vulnerable. -/
theorem resetGhostsLoop_spec :
    ∀ (l : List GhostE) (k : Nat), l.length + k ≤ 4 →
      ∃ l', resetGhostsLoop l k = .ok l' ∧ l'.length = l.length ∧
        ∀ j, l'.get? j = (l.get? j).map (fun g =>
          { g with position := ghostSpawn.getD (k + j) (0, 0), in_house := some true,
                   is_vulnerable := false }) := by
  intro l
  induction l with
  | nil =>
      intro k _
      exact ⟨[], rfl, rfl, fun j => by simp⟩
  | cons g rest ih =>
      intro k hk
      have hk4 : k < 4 := by simp at hk; omega
      have hsp := listIndexE_ghostSpawn k hk4
      obtain ⟨l', hl', hlen, hget⟩ := ih (k + 1) (by simp at hk ⊢; omega)
      refine ⟨{ g with position := ghostSpawn.getD k (0, 0), in_house := some true,
                       is_vulnerable := false } :: l', ?_, ?_, ?_⟩
      · simp only [resetGhostsLoop, hsp, hl', bindE_ok]
      · simp [hlen]
      · intro j
        cases j with
        | zero => simp
        | succ n =>
            simp only [List.get?_cons_succ]
            rw [show k + (n + 1) = k + 1 + n from by omega]
            exact hget n

/-- `_eat_ghost` at index `i < 4`: clears the ghost's vulnerability, houses
it at `GHOST_SPAWN[i]`, and adds exactly 200 to the score. -/
theorem eatGhost_spec (s : GState) (pac : PacManE) (i : Nat) (g : GhostE)
    (hpac : s.pacman = some pac) (hg : s.ghosts.get? i = some g) (hi : i < 4) :
    ∃ s' home, eatGhost s i = .ok s' ∧ ghostSpawn.get? i = some home ∧
      s'.pacman = some { pac with score := pac.score + 200 } ∧
      s'.ghosts.get? i = some { g with is_vulnerable := false, vulnerable_timer := 0,
                                        in_house := some true, position := home } := by
  have hsp := listIndexE_ghostSpawn i hi
  have hspval : ghostSpawn.get? i = some (ghostSpawn.getD i (0, 0)) := by
    interval_cases i <;> rfl
  refine ⟨{ s with
            ghosts := listModify
              (fun g => { g with is_vulnerable := false, vulnerable_timer := 0,
                                 in_house := some true, position := ghostSpawn.getD i (0, 0) })
              s.ghosts i,
            pacman := some { pac with score := pac.score + 200 } },
          ghostSpawn.getD i (0, 0), ?_, hspval, rfl, ?_⟩
  · simp only [eatGhost, hsp, bindE_ok, hpac, readAttr]
  · rw [show ({ s with
        ghosts := listModify
          (fun g => { g with is_vulnerable := false, vulnerable_timer := 0,
                             in_house := some true, position := ghostSpawn.getD i (0, 0) })
          s.ghosts i,
        pacman := some { pac with score := pac.score + 200 } } : GState).ghosts
      = listModify
          (fun g => { g with is_vulnerable := false, vulnerable_timer := 0,
                             in_house := some true, position := ghostSpawn.getD i (0, 0) })
          s.ghosts i from rfl]
    rw [listModify_get?, if_pos rfl, hg]
    rfl

/-- In-place update keeps the list length. -/
theorem listModify_length (f : α → α) :
    ∀ (l : List α) (i : Nat), (listModify f l i).length = l.length := by
  intro l
  induction l with
  | nil => intro i; rfl
  | cons a rest ih =>
      intro i
      cases i with
      | zero => rfl
      | succ n => simp [listModify, ih n]

/-- `_pacman_dies`: with lives remaining it respawns the player at the
spawn, resets every ghost to its `GHOST_SPAWN` slot housed and
invulnerable (then immediately un-houses ghost 0), and sets
`ghosts_released := 1` — but `ghost_release_timer` keeps its old value.
With no lives remaining it only decrements lives and flips the phase to
`GAME_OVER`. -/
theorem pacmanDies_spec (s : GState) (pac : PacManE)
    (hpac : s.pacman = some pac) (hlen : s.ghosts.length ≤ 4) :
    (1 < pac.lives →
      ∃ s', pacmanDies s = .ok s' ∧
        s'.pacman = some { pac with
                            lives := pac.lives - 1
                            position := pacmanSpawn
                            direction := "RIGHT"
                            next_direction := none } ∧
        s'.ghosts_released = 1 ∧
        s'.ghost_release_timer = s.ghost_release_timer ∧
        s'.game_state = s.game_state ∧
        s'.ghosts.length = s.ghosts.length ∧
        ∀ j, s'.ghosts.get? j = (s.ghosts.get? j).map (fun g =>
          { g with position := ghostSpawn.getD j (0, 0),
                   in_house := some (decide ¬ (j = 0)),
                   is_vulnerable := false })) ∧
    (¬ 1 < pac.lives →
      pacmanDies s = .ok { s with pacman := some { pac with lives := pac.lives - 1 },
                                   game_state := "GAME_OVER" }) := by
  obtain ⟨l', hl', hlen', hget⟩ := resetGhostsLoop_spec s.ghosts 0 (by omega)
  constructor
  · intro halive
    refine ⟨{ s with
              pacman := some { pac with
                                lives := pac.lives - 1
                                position := pacmanSpawn
                                direction := "RIGHT"
                                next_direction := none },
              ghosts := listModify (fun g => { g with in_house := some false }) l' 0,
              ghosts_released := 1 }, ?_, rfl, rfl, rfl, rfl, ?_, ?_⟩
    · simp only [pacmanDies, hpac, readAttr, bindE_ok, loseLife, resetPosition]
      rw [if_pos (show decide (pac.lives - 1 > 0) = true by simp; omega)]
      rw [hl', bindE_ok]
    · rw [show ({ s with
          pacman := some { pac with
                            lives := pac.lives - 1
                            position := pacmanSpawn
                            direction := "RIGHT"
                            next_direction := none },
          ghosts := listModify (fun g => { g with in_house := some false }) l' 0,
          ghosts_released := 1 } : GState).ghosts
        = listModify (fun g => { g with in_house := some false }) l' 0 from rfl]
      rw [listModify_length, hlen']
    · intro j
      rw [show ({ s with
          pacman := some { pac with
                            lives := pac.lives - 1
                            position := pacmanSpawn
                            direction := "RIGHT"
                            next_direction := none },
          ghosts := listModify (fun g => { g with in_house := some false }) l' 0,
          ghosts_released := 1 } : GState).ghosts
        = listModify (fun g => { g with in_house := some false }) l' 0 from rfl]
      rw [listModify_get?]
      cases j with
      | zero =>
          rw [if_pos rfl, hget 0]
          cases hx : s.ghosts.get? 0 <;> simp
      | succ n =>
          rw [if_neg (by omega), hget (n + 1)]
          cases hx : s.ghosts.get? (n + 1) <;> simp
  · intro hdead
    simp only [pacmanDies, hpac, readAttr, bindE_ok, loseLife]
    rw [if_neg (show ¬ decide (pac.lives - 1 > 0) = true by simp; omega)]

/-- The collision loop passes over every skipped ghost unchanged. -/
theorem collideLoop_skip (s : GState) (pac : PacManE) (hpac : s.pacman = some pac) :
    ∀ (pre rest : List GhostE) (k : Nat),
      (∀ g' ∈ pre, skippedBy pac.position g') →
      collideLoop s (pre ++ rest) k = collideLoop s rest (k + pre.length) := by
  intro pre
  induction pre with
  | nil => intro rest k _; simp
  | cons g' pre' ih =>
      intro rest k hskip
      have hg' := hskip g' (List.mem_cons_self g' pre')
      have htail : ∀ g'' ∈ pre', skippedBy pac.position g'' :=
        fun g'' h => hskip g'' (List.mem_cons_of_mem g' h)
      have harith : k + (g' :: pre').length = (k + 1) + pre'.length := by simp; omega
      rw [harith]
      rcases hg' with h | ⟨h, hne⟩
      · show collideLoop s (g' :: (pre' ++ rest)) k = _
        simp only [collideLoop, h, readAttr, bindE_ok, if_true]
        exact ih rest (k + 1) htail
      · show collideLoop s (g' :: (pre' ++ rest)) k = _
        simp only [collideLoop, h, readAttr, bindE_ok, hpac]
        rw [if_neg (by simp), if_neg hne]
        exact ih rest (k + 1) htail

/-- C4: at the first non-housed adversary occupying the player's cell, the
collision pass either captures it (vulnerable case: vulnerability cleared,
sent home to its `GHOST_SPAWN` slot, score +200, lives untouched) or costs
the player exactly one life (non-vulnerable case, score untouched). -/
theorem c4_collision_capture_or_death (s : GState) (pac : PacManE) (i : Nat) (g : GhostE)
    (hpac : s.pacman = some pac)
    (hg : s.ghosts.get? i = some g)
    (hpre : ∀ g' ∈ s.ghosts.take i, skippedBy pac.position g')
    (hhouse : g.in_house = some false)
    (hcol : pac.position = g.position)
    (hi : i < 4) (hlen : s.ghosts.length ≤ 4) :
    (g.is_vulnerable = true →
      ∃ s' home, checkGhostCollisions s = .ok s' ∧ ghostSpawn.get? i = some home ∧
        s'.pacman.map PacManE.score = some (pac.score + 200) ∧
        s'.pacman.map PacManE.lives = some pac.lives ∧
        s'.ghosts.get? i = some { g with is_vulnerable := false, vulnerable_timer := 0,
                                          in_house := some true, position := home }) ∧
    (g.is_vulnerable = false →
      ∃ s', checkGhostCollisions s = .ok s' ∧
        s'.pacman.map PacManE.lives = some (pac.lives - 1) ∧
        s'.pacman.map PacManE.score = some pac.score) := by
  have hilen : i < s.ghosts.length := by
    by_contra hle
    push_neg at hle
    rw [List.get?_eq_none.mpr hle] at hg
    cases hg
  have hdrop : s.ghosts.drop i = g :: s.ghosts.drop (i + 1) := by
    rw [List.drop_eq_getElem_cons hilen]
    congr 1
    have := List.get?_eq_get hilen
    rw [this] at hg
    exact (Option.some.injEq _ _).mp hg.symm |>.symm
  have htake : (s.ghosts.take i).length = i := by
    rw [List.length_take]
    omega
  have hsplit : s.ghosts = s.ghosts.take i ++ (g :: s.ghosts.drop (i + 1)) := by
    rw [← hdrop, List.take_append_drop]
  have hloop : checkGhostCollisions s
      = collideLoop s (g :: s.ghosts.drop (i + 1)) i := by
    rw [checkGhostCollisions]
    conv_lhs => rw [hsplit]
    rw [collideLoop_skip s pac hpac _ _ 0 hpre, htake, Nat.zero_add]
  have hstep : ∀ e : Except PyErr GState,
      (if g.is_vulnerable then eatGhost s i else pacmanDies s) = e →
      checkGhostCollisions s = e := by
    intro e he
    rw [hloop]
    simp only [collideLoop, hhouse, readAttr, bindE_ok, hpac]
    rw [if_neg (by simp), if_pos hcol]
    exact he
  constructor
  · intro hv
    obtain ⟨s', home, heat, hhome, hpa, hgh⟩ := eatGhost_spec s pac i g hpac hg hi
    refine ⟨s', home, hstep _ (by rw [if_pos hv]; exact heat), hhome, ?_, ?_, hgh⟩
    · rw [hpa]; rfl
    · rw [hpa]; rfl
  · intro hv
    obtain ⟨halive, hdead⟩ := pacmanDies_spec s pac hpac hlen
    by_cases hl : 1 < pac.lives
    · obtain ⟨s', hdies, hpa, _⟩ := halive hl
      refine ⟨s', hstep _ (by rw [if_neg (by simp [hv])]; exact hdies), ?_, ?_⟩
      · rw [hpa]; rfl
      · rw [hpa]; rfl
    · refine ⟨{ s with pacman := some { pac with lives := pac.lives - 1 },
                        game_state := "GAME_OVER" },
               hstep _ (by rw [if_neg (by simp [hv])]; exact hdead hl), rfl, rfl⟩

/-- Witness for C4 at `stateC4`: the housed Pinky is skipped, the
vulnerable Blinky at the player's cell (index 1) is captured for +200. -/
theorem c4_collision_capture_or_death_witness :
    ∃ s' home, checkGhostCollisions stateC4 = .ok s' ∧ ghostSpawn.get? 1 = some home ∧
      s'.pacman.map PacManE.score = some (300 + 200) ∧
      s'.pacman.map PacManE.lives = some 3 ∧
      s'.ghosts.get? 1 = some { mkGhost (10, 12) "blinky" with
                                 is_vulnerable := false
                                 vulnerable_timer := 0
                                 frightened_timer := 400
                                 in_house := some true
                                 position := home } := by
  have h := (c4_collision_capture_or_death stateC4
      { mkPacMan (10, 12) 3 with score := 300 } 1
      { mkGhost (10, 12) "blinky" with in_house := some false, is_vulnerable := true,
                                       vulnerable_timer := 400, frightened_timer := 400 }
      rfl rfl
      (by intro g' hmem
          have h1 : g' = { mkGhost (10, 9) "pinky" with in_house := some true } := by
            simpa [stateC4] using hmem
          subst h1
          exact Or.inl rfl)
      rfl (by decide) (by decide) (by decide)).1 rfl
  obtain ⟨s', home, h1, h2, h3, h4, h5⟩ := h
  exact ⟨s', home, h1, h2, h3, h4, by simpa using h5⟩

/-- C5 counterexample: in `stateC5` the release timer already sits at 500.
After the death tick, `ghosts_released` is back to 1 but
`ghost_release_timer` is still 500 — not the level-start value 0 that
`_setup_level` installs — and the very next `_update_ghost_release` call
releases all three remaining ghosts at once instead of re-running the
staggered 2 s / 4 s / 6 s delays. -/
theorem c5_counterexample_timer_not_reset :
    (pacmanDies stateC5).map (fun s => (s.ghost_release_timer, s.ghosts_released))
      = .ok (500, 1) ∧
    (setupLevel stateC5).ghost_release_timer = 0 ∧
    (pacmanDies stateC5).map GState.ghost_release_timer ≠ .ok 0 ∧
    (pacmanDies stateC5 >>= fun s => .ok (updateGhostRelease s)).map GState.ghosts_released
      = .ok 4 := by
  refine ⟨by decide, by decide, by decide, by decide⟩

/-- C5 amended: on life loss with lives remaining, the player respawns at
its level-start coordinate facing RIGHT with no queued input, every
adversary is moved to its `GHOST_SPAWN` home slot with vulnerability
cleared and housed (ghost 0 immediately un-housed again), and
`ghosts_released` is reset to 1 — but `ghost_release_timer` keeps its
pre-death value, so the release countdown state does *not* return to the
level-start state and the remaining adversaries need not wait their full
staggered delays before leaving again. -/
theorem c5_amended_death_reset (s : GState) (pac : PacManE)
    (hpac : s.pacman = some pac) (halive : 1 < pac.lives) (hlen : s.ghosts.length ≤ 4) :
    ∃ s', pacmanDies s = .ok s' ∧
      s'.pacman = some { pac with
                          lives := pac.lives - 1
                          position := pacmanSpawn
                          direction := "RIGHT"
                          next_direction := none } ∧
      s'.ghosts_released = 1 ∧
      s'.ghost_release_timer = s.ghost_release_timer ∧
      s'.ghosts.length = s.ghosts.length ∧
      ∀ j, s'.ghosts.get? j = (s.ghosts.get? j).map (fun g =>
        { g with position := ghostSpawn.getD j (0, 0),
                 in_house := some (decide ¬ (j = 0)),
                 is_vulnerable := false }) := by
  obtain ⟨s', h1, h2, h3, h4, _, h6, h7⟩ := (pacmanDies_spec s pac hpac hlen).1 halive
  exact ⟨s', h1, h2, h3, h4, h6, h7⟩

/-- Witness for the amended C5 at `stateC5`. -/
theorem c5_amended_death_reset_witness :
    ∃ s', pacmanDies stateC5 = .ok s' ∧
      s'.pacman = some { mkPacMan (14, 9) 3 with
                          lives := 1
                          score := 700
                          position := pacmanSpawn
                          direction := "RIGHT"
                          next_direction := none } ∧
      s'.ghosts_released = 1 ∧
      s'.ghost_release_timer = stateC5.ghost_release_timer ∧
      s'.ghosts.length = stateC5.ghosts.length ∧
      ∀ j, s'.ghosts.get? j = (stateC5.ghosts.get? j).map (fun g =>
        { g with position := ghostSpawn.getD j (0, 0),
                 in_house := some (decide ¬ (j = 0)),
                 is_vulnerable := false }) := by
  obtain ⟨s', h1, h2, h3, h4, h5, h6⟩ := c5_amended_death_reset stateC5
    { mkPacMan (14, 9) 3 with lives := 2, score := 700 } rfl (by decide) (by decide)
  exact ⟨s', h1, by simpa using h2, h3, h4, h5, h6⟩
